import Mathlib

/-
Shallow embedding of the DevBench rubric-evaluation scripts
(src/src/requirement.py, backend.py, bug.py, project.py and
src/process_scores.py).

Modelling conventions:
- Python numbers (ints and floats) are modelled as rationals (ℚ).
- `round(x, 1)` / `round(x, 2)` are modelled by `round1` / `round2`,
  using Python's round-half-to-even rule on the exact rational value.
- Artifact text is a `List Char`; `str.lower()` is `Char.toLower`
  (it agrees with Python on ASCII and is the identity on the CJK
  characters used by every configured keyword).
- Regex detectors over free-form patterns (the quantifiable-metric and
  EARS pattern lists) are external data per the evaluation design: they
  are passed in as a `findall` oracle mapping a pattern to its list of
  matches.  The simple section-extraction regex
  `section.*?(?=##|\Z)` (DOTALL) is implemented directly.
- Fallible code paths (Python NameError on an unbound local) are
  modelled with `Except String`.
-/

namespace DevBench

/-! ### Python rounding on rationals -/

/-- Python `round` to an integer: round half to even on an exact rational. -/
def pyRoundInt (q : ℚ) : ℤ :=
  let f : ℤ := ⌊q⌋
  let frac : ℚ := q - f
  if frac < 1/2 then f
  else if 1/2 < frac then f + 1
  else if 2 ∣ f then f else f + 1

/-- Python `round(x, 1)`. -/
def round1 (q : ℚ) : ℚ := (pyRoundInt (q * 10) : ℚ) / 10

/-- Python `round(x, 2)`. -/
def round2 (q : ℚ) : ℚ := (pyRoundInt (q * 100) : ℚ) / 100

theorem pyRoundInt_bounds (q : ℚ) :
    q - 1/2 ≤ (pyRoundInt q : ℚ) ∧ (pyRoundInt q : ℚ) ≤ q + 1/2 := by
  have hfl : (⌊q⌋ : ℚ) ≤ q := Int.floor_le q
  have hfl' : q < (⌊q⌋ : ℚ) + 1 := Int.lt_floor_add_one q
  unfold pyRoundInt
  simp only
  split
  · constructor <;> [linarith; linarith]
  · split
    · push_cast; constructor <;> linarith
    · split
      · constructor <;> [linarith; linarith]
      · push_cast; constructor <;> linarith

theorem pyRoundInt_intCast (n : ℤ) : pyRoundInt (n : ℚ) = n := by
  unfold pyRoundInt
  simp [Int.floor_intCast]

theorem round1_intCast (n : ℤ) : round1 (n : ℚ) = n := by
  unfold round1
  rw [show ((n : ℚ) * 10) = ((n * 10 : ℤ) : ℚ) by push_cast; ring,
    pyRoundInt_intCast]
  push_cast
  ring

theorem round1_natCast (n : ℕ) : round1 (n : ℚ) = n := by
  simpa using round1_intCast (n : ℤ)

theorem round1_nonneg {q : ℚ} (h : 0 ≤ q) : 0 ≤ round1 q := by
  unfold round1
  have hb := (pyRoundInt_bounds (q * 10)).1
  have h1 : (-1 : ℤ) < pyRoundInt (q * 10) := by
    have : (-1 : ℚ) < (pyRoundInt (q * 10) : ℚ) := by linarith
    exact_mod_cast this
  have h0 : (0 : ℤ) ≤ pyRoundInt (q * 10) := by omega
  have : (0 : ℚ) ≤ (pyRoundInt (q * 10) : ℚ) := by exact_mod_cast h0
  positivity

theorem round1_le_int {q : ℚ} {M : ℤ} (h : q ≤ M) : round1 q ≤ M := by
  unfold round1
  have hb := (pyRoundInt_bounds (q * 10)).2
  have h1 : (pyRoundInt (q * 10) : ℚ) < 10 * M + 1 := by nlinarith
  have h2 : pyRoundInt (q * 10) < 10 * M + 1 := by exact_mod_cast h1
  have h3 : pyRoundInt (q * 10) ≤ 10 * M := by omega
  have h4 : (pyRoundInt (q * 10) : ℚ) ≤ 10 * M := by exact_mod_cast h3
  linarith

/-! ### Case-insensitive substring search -/

/-- `lower cs` models Python `str.lower()` on the characters. -/
def lower (cs : List Char) : List Char := cs.map Char.toLower

/-- Index of the first occurrence of `pat` in `s` (leftmost match),
modelling an unanchored regex/`in` search. -/
def firstIdx (pat : List Char) : List Char → Option Nat
  | [] => if pat.isEmpty then some 0 else none
  | c :: rest =>
    if pat.isPrefixOf (c :: rest) then some 0
    else (firstIdx pat rest).map (· + 1)

/-- Python `pat in s` (substring test). -/
def containsSub (pat s : List Char) : Bool := (firstIdx pat s).isSome

/-- Python `keyword.lower() in content_lower`. -/
def kwIn (kw content : List Char) : Bool := containsSub (lower kw) (lower content)

/-! ### Number formatting (canonical rendering of the rationals that stand
for Python floats; the evaluation logic never depends on the digits). -/

/-- Fixed one-decimal rendering of a nonnegative rational (Python `.1f`). -/
def fmtQ1 (q : ℚ) : String :=
  let n := (pyRoundInt (q * 10)).toNat
  toString (n / 10) ++ "." ++ toString (n % 10)

/-- Fixed two-decimal rendering of a nonnegative rational (Python `.2f`). -/
def fmtQ2 (q : ℚ) : String :=
  let n := (pyRoundInt (q * 100)).toNat
  toString (n / 100) ++ "." ++ toString (n % 100 / 10) ++ toString (n % 10)

/-- Rendering of a rational standing for a Python int. -/
def fmtQInt (q : ℚ) : String := toString q.num.toNat

/-- Rendering of a configured weight (Python prints `2` for the int
weights and `1.5` for the float ones). -/
def fmtW (q : ℚ) : String := if q.den = 1 then toString q.num.toNat else fmtQ1 q

/-- Grade mapping `_calculate_grade`, duplicated verbatim in every
analyzer class; the argument is the score ratio `total/maxTotal`. -/
def calculate_grade (percentage : ℚ) : String :=
  if 9/10 ≤ percentage then "优秀 (A)"
  else if 8/10 ≤ percentage then "良好 (B)"
  else if 7/10 ≤ percentage then "中等 (C)"
  else if 6/10 ≤ percentage then "及格 (D)"
  else "不及格 (F)"

/-- The threshold-bucket loop shared by `BugAnalyzer._evaluate_fix_efficiency`
and `ProjectAnalyzer.evaluate_delivery_efficiency`: starting from score 0,
return the score of the first bucket whose bound the value is strictly
below; `none` models `float(inf)`. -/
def bucketScore : List (Option ℚ × ℚ) → ℚ → ℚ
  | [], _ => 0
  | (none, s) :: _, _ => s
  | (some bd, s) :: rest, t => if t < bd then s else bucketScore rest t

namespace Requirement

/-! ### RequirementAnalyzer (src/src/requirement.py) -/

/-- `self.function_keywords` (weights 2 for core, 1.5 for important). -/
def function_keywords : List (String × ℚ) :=
  [("用户注册", 2), ("登录", 2), ("书籍搜索", 2), ("发布图书", 2),
   ("自提", 2), ("自付款", 2),
   ("分类浏览", 3/2), ("订单管理", 3/2), ("图书详情", 3/2), ("个人中心", 3/2)]

structure CoverageResult where
  total_score : ℚ
  max_score : ℚ
  matched_keywords : List String
  unmatched_keywords : List String
  details : List String
deriving DecidableEq

/-- One iteration of the keyword loop of `evaluate_function_coverage`. -/
def coverageStep (content : List Char) (total_weight : ℚ)
    (r : CoverageResult) (kw : String × ℚ) : CoverageResult :=
  if kwIn kw.1.toList content then
    let score := (kw.2 / total_weight) * r.max_score
    { r with
      total_score := r.total_score + score
      matched_keywords := r.matched_keywords ++ [kw.1]
      details := r.details ++
        ["✓ 找到关键词: " ++ kw.1 ++ " (权重: " ++ fmtW kw.2 ++
         ", 得分: " ++ fmtQ1 score ++ ")"] }
  else
    { r with
      unmatched_keywords := r.unmatched_keywords ++ [kw.1]
      details := r.details ++
        ["✗ 未找到关键词: " ++ kw.1 ++ " (权重: " ++ fmtW kw.2 ++ ")"] }

/-- `evaluate_function_coverage`, generalised over the configured keyword
map (the source reads it from `self.function_keywords`). -/
def evaluate_function_coverage_with (kws : List (String × ℚ))
    (content : List Char) : CoverageResult :=
  let total_weight : ℚ := (kws.map Prod.snd).sum
  let r := kws.foldl (coverageStep content total_weight)
    { total_score := 0, max_score := 20, matched_keywords := [],
      unmatched_keywords := [], details := [] }
  { r with total_score := round1 r.total_score }

def evaluate_function_coverage (content : List Char) : CoverageResult :=
  evaluate_function_coverage_with function_keywords content

/-- One entry of the `structure_criteria` table. -/
structure SectionCriteria where
  name : String
  keywords : List String
  min_content_length : Nat
  weight : ℚ
deriving DecidableEq

/-- The `structure_criteria` table of `evaluate_structure_completeness`. -/
def structure_criteria : List SectionCriteria :=
  [{ name := "技术约束", keywords := ["前端", "后端", "数据库", "技术栈"],
     min_content_length := 50, weight := 3 },
   { name := "功能需求", keywords := ["功能", "模块", "用户", "系统"],
     min_content_length := 200, weight := 5 },
   { name := "非功能需求", keywords := ["性能", "安全", "可用性", "响应时间"],
     min_content_length := 100, weight := 4 },
   { name := "用户故事", keywords := ["作为", "我希望", "以便", "用户"],
     min_content_length := 150, weight := 4 },
   { name := "验收标准", keywords := ["验收", "标准", "测试", "条件"],
     min_content_length := 100, weight := 4 }]

/-- Length of the text matched by `re.search(rf"{section}.*?(?=##|\Z)",
content, DOTALL | IGNORECASE)`: from the leftmost (case-insensitive)
occurrence of the section name, the shortest extension to a position
where `##` starts or the document ends. -/
def sectionMatchLen (sec : String) (content : List Char) : Option Nat :=
  match firstIdx (lower sec.toList) (lower content) with
  | none => none
  | some i =>
    let afterSec := content.drop (i + sec.toList.length)
    match firstIdx "##".toList afterSec with
    | some j => some (sec.toList.length + j)
    | none => some (sec.toList.length + afterSec.length)

/-- Keyword-density bonus: 1 point when at least 2 context keywords occur
in the document. -/
def sectionKwBonus (c : SectionCriteria) (content : List Char) : Nat :=
  if 2 ≤ (c.keywords.filter (fun kw => kwIn kw.toList content)).length
  then 1 else 0

/-- Content-length bonus: 1 point when the extracted section text reaches
`min_content_length`. -/
def sectionLenBonus (c : SectionCriteria) (content : List Char) : Nat :=
  match sectionMatchLen c.name content with
  | some len => if c.min_content_length ≤ len then 1 else 0
  | none => 0

/-- Quality score of a found section: base 2 for presence, plus the two
bonus points (lines 181-201 of requirement.py). -/
def sectionQuality (c : SectionCriteria) (content : List Char) : Nat :=
  2 + sectionKwBonus c content + sectionLenBonus c content

structure StructureResult where
  total_score : ℚ
  max_score : ℚ
  found_sections : List String
  missing_sections : List String
  details : List String
  quality_scores : List (String × Nat)
deriving DecidableEq

/-- One iteration of the section loop of `evaluate_structure_completeness`. -/
def structureStep (content : List Char)
    (r : StructureResult) (c : SectionCriteria) : StructureResult :=
  if kwIn c.name.toList content then
    let q := sectionQuality c content
    let final_score := ((q : ℚ) / 4) * c.weight
    { r with
      total_score := r.total_score + final_score
      found_sections := r.found_sections ++ [c.name]
      quality_scores := r.quality_scores ++ [(c.name, q)]
      details := r.details ++
        ["✓ 找到结构部分: " ++ c.name ++ " (质量分: " ++ toString q ++
         "/4, 得分: " ++ fmtQ1 final_score ++ ")"] }
  else
    { r with
      missing_sections := r.missing_sections ++ [c.name]
      details := r.details ++
        ["✗ 未找到结构部分: " ++ c.name ++ " (权重: " ++ fmtW c.weight ++ ")"] }

/-- `evaluate_structure_completeness`. -/
def evaluate_structure_completeness (content : List Char) : StructureResult :=
  let r := structure_criteria.foldl (structureStep content)
    { total_score := 0, max_score := 20, found_sections := [],
      missing_sections := [], details := [], quality_scores := [] }
  { r with total_score := round1 r.total_score }

/-- The `quantifiable_categories` table of `evaluate_description_clarity`
(pattern strings kept verbatim; matching itself is delegated to the
`findall` oracle). -/
def quantifiable_categories : List (String × List String) :=
  [("时间指标", ["\\d+\\s*分钟", "\\d+\\s*小时", "\\d+\\s*天", "\\d+\\s*秒"]),
   ("数量指标", ["\\d+\\s*个", "\\d+\\s*次", "\\d+\\s*条", "至少\\s*\\d+",
                 "最多\\s*\\d+", "不超过\\s*\\d+"]),
   ("性能指标", ["\\d+\\s*%", "响应时间\\s*[<≤]\\s*\\d+",
                 "支持\\s*\\d+\\s*[个]?用户"]),
   ("技术指标", ["端口\\s*\\d+", "版本\\s*\\d+", "\\d+\\.\\d+\\.\\d+"])]

structure ClarityResult where
  total_score : Nat
  max_score : Nat
  quantifiable_count : Nat
  found_quantifiables : List String
  details : List String
  category_scores : List (String × Nat)
deriving DecidableEq

/-- Raw count of a category: total matches over its patterns. -/
def categoryRawCount (findall : String → List String)
    (cat : String × List String) : Nat :=
  (cat.2.map (fun p => (findall p).length)).sum

/-- The overall-performance bonus of `evaluate_description_clarity`
(the final if/elif chain): highest satisfied tier wins. -/
def clarityBonus (n : Nat) : Nat :=
  if 10 ≤ n then 3 else if 5 ≤ n then 2 else if 2 ≤ n then 1 else 0

/-- One iteration of the inner pattern loop of
`evaluate_description_clarity`: accumulate the category count and the
found matches. -/
def clarityCollect (findall : String → List String)
    (acc : Nat × List String) (p : String) : Nat × List String :=
  let ms := findall p
  if ms.isEmpty then acc else (acc.1 + ms.length, acc.2 ++ ms)

/-- One iteration of the category loop of `evaluate_description_clarity`. -/
def clarityStep (findall : String → List String)
    (r : ClarityResult) (cat : String × List String) : ClarityResult :=
  let counted := cat.2.foldl (clarityCollect findall) (0, r.found_quantifiables)
  let category_count := counted.1
  { r with
    found_quantifiables := counted.2
    category_scores := r.category_scores ++ [(cat.1, category_count)]
    quantifiable_count := r.quantifiable_count + category_count
    details := r.details ++
      [if 0 < category_count then
         "✓ " ++ cat.1 ++ ": 找到 " ++ toString category_count ++ " 个量化指标"
       else "✗ " ++ cat.1 ++ ": 未找到量化指标"] }

/-- `evaluate_description_clarity`, with regex matching supplied by the
`findall` oracle (pattern ↦ list of matches in the document). -/
def evaluate_description_clarity (findall : String → List String) : ClarityResult :=
  let r := quantifiable_categories.foldl (clarityStep findall)
    { total_score := 0, max_score := 15, quantifiable_count := 0,
      found_quantifiables := [], details := [], category_scores := [] }
  let r := { r with
    total_score := r.category_scores.foldl
      (fun s (c : String × Nat) => s + min c.2 3) r.total_score }
  { r with total_score := r.total_score + clarityBonus r.quantifiable_count }

/-- The `tech_requirements` table of `evaluate_tech_requirements`. -/
def tech_requirements : List (String × List String) :=
  [("arco.design", ["前端", "UI", "组件库", "界面"]),
   ("vue", ["前端", "框架", "javascript", "js"]),
   ("fastapi", ["后端", "API", "接口", "服务"]),
   ("sqlmodel", ["数据库", "ORM", "模型", "数据"]),
   ("mysql", ["数据库", "存储", "数据", "连接"])]

structure TechResult where
  total_score : ℚ
  max_score : ℚ
  matched_keywords : List String
  unmatched_keywords : List String
  details : List String
  context_scores : List (String × ℚ)
deriving DecidableEq

/-- `evaluate_tech_requirements`. -/
def evaluate_tech_requirements (content : List Char) : TechResult :=
  let step := fun (r : TechResult) (tech : String × List String) =>
    if kwIn tech.1.toList content then
      let context_count :=
        (tech.2.filter (fun kw => kwIn kw.toList content)).length
      let context_score := min ((context_count : ℚ) * (1/8)) (1/2)
      let total_score := 3/2 + context_score
      { r with
        total_score := r.total_score + total_score
        matched_keywords := r.matched_keywords ++ [tech.1]
        context_scores := r.context_scores ++ [(tech.1, context_score)]
        details := r.details ++
          ["✓ 找到技术栈: " ++ tech.1 ++ " (基础分: 1.5, 上下文分: " ++
           fmtQ2 context_score ++ ")"] }
    else
      { r with
        unmatched_keywords := r.unmatched_keywords ++ [tech.1]
        details := r.details ++ ["✗ 未找到技术栈: " ++ tech.1] }
  let r := tech_requirements.foldl step
    { total_score := 0, max_score := 10, matched_keywords := [],
      unmatched_keywords := [], details := [], context_scores := [] }
  { r with total_score := round1 r.total_score }

/-- The `ears_patterns` table of `evaluate_ears_compliance`. -/
def ears_patterns : List (String × String) :=
  [("普通需求", "系统应当|系统必须|系统需要"),
   ("事件驱动", "当.*时，系统应当|如果.*，则系统"),
   ("状态驱动", "在.*状态下，系统应当|处于.*时"),
   ("可选特性", "在.*情况下，系统应当|如果.*可用"),
   ("复杂需求", "在.*条件下，当.*时，系统应当")]

structure EarsResult where
  total_score : Nat
  max_score : Nat
  ears_patterns_found : List String
  details : List String
deriving DecidableEq

/-- `evaluate_ears_compliance`, with the regex oracle. -/
def evaluate_ears_compliance (findall : String → List String) : EarsResult :=
  let step := fun (r : EarsResult) (pat : String × String) =>
    let ms := findall pat.2
    if ms.isEmpty then
      { r with details := r.details ++ ["✗ 未找到" ++ pat.1 ++ "模式"] }
    else
      { r with
        ears_patterns_found := r.ears_patterns_found ++ ms
        total_score := r.total_score + 2
        details := r.details ++
          ["✓ 找到" ++ pat.1 ++ "模式: " ++ toString ms.length ++ "个"] }
  ears_patterns.foldl step
    { total_score := 0, max_score := 10, ears_patterns_found := [], details := [] }

/-- `_generate_recommendations`. -/
def generate_recommendations (fc : CoverageResult) (sc : StructureResult)
    (dc : ClarityResult) (tr : TechResult) (ec : EarsResult) : List String :=
  let recs : List String := []
  let recs := recs ++
    (if fc.unmatched_keywords.isEmpty then []
     else
       let high := fc.unmatched_keywords.filter
         (fun kw => 3/2 ≤ ((function_keywords.lookup kw).getD 1))
       let low := fc.unmatched_keywords.filter
         (fun kw => ((function_keywords.lookup kw).getD 1) < 3/2)
       (if high.isEmpty then []
        else ["建议优先添加以下重要功能点: " ++ String.intercalate ", " high]) ++
       (if low.isEmpty then []
        else ["建议添加以下辅助功能点: " ++ String.intercalate ", " low]))
  let recs := recs ++
    (if sc.missing_sections.isEmpty then []
     else ["建议在文档中添加以下结构部分: " ++
           String.intercalate ", " sc.missing_sections])
  let missing_categories :=
    (dc.category_scores.filter (fun (c : String × Nat) => c.2 == 0)).map Prod.fst
  let recs := recs ++
    (if missing_categories.isEmpty then []
     else ["建议添加以下类型的量化指标: " ++
           String.intercalate ", " missing_categories])
  let recs := recs ++
    (if tr.unmatched_keywords.isEmpty then []
     else ["建议在文档中明确指定使用以下技术栈: " ++
           String.intercalate ", " tr.unmatched_keywords])
  let recs := recs ++
    (if ec.total_score < 6 then
       ["建议使用更多EARS规范的需求描述模式，如系统应当、当...时系统应当等"]
     else [])
  if recs.isEmpty then ["需求文档质量良好，无需特别改进"] else recs

structure EvalSummary where
  total_score : ℚ
  max_total_score : ℚ
  percentage : ℚ
  evaluation_date : String
  grade : String
deriving DecidableEq

structure Report where
  summary : EvalSummary
  function_coverage : CoverageResult
  structure_completeness : StructureResult
  description_clarity : ClarityResult
  tech_requirements : TechResult
  ears_compliance : EarsResult
  recommendations : List String
deriving DecidableEq

/-- `generate_evaluation_report`, after the artifact has been loaded:
the inputs are the loaded document text, the regex oracle, and the
current date (`datetime.now().strftime`). -/
def generate_evaluation_report (content : List Char)
    (findall : String → List String) (today : String) : Report :=
  let fc := evaluate_function_coverage content
  let sc := evaluate_structure_completeness content
  let dc := evaluate_description_clarity findall
  let tr := evaluate_tech_requirements content
  let ec := evaluate_ears_compliance findall
  let total : ℚ := fc.total_score + sc.total_score + (dc.total_score : ℚ) +
    tr.total_score + (ec.total_score : ℚ)
  let maxTotal : ℚ := fc.max_score + sc.max_score + (dc.max_score : ℚ) +
    tr.max_score + (ec.max_score : ℚ)
  { summary :=
      { total_score := round1 total
        max_total_score := maxTotal
        percentage := round2 (total / maxTotal * 100)
        evaluation_date := today
        grade := calculate_grade (total / maxTotal) }
    function_coverage := fc
    structure_completeness := sc
    description_clarity := dc
    tech_requirements := tr
    ears_compliance := ec
    recommendations := generate_recommendations fc sc dc tr ec }

/-- `- {detail}` bullet lines. -/
def bullets (ds : List String) : String :=
  String.join (ds.map (fun d => "- " ++ d ++ "\n"))

/-- `', '.join(xs) if xs else '无'`. -/
def joinOr (xs : List String) : String :=
  if xs.isEmpty then "无" else String.intercalate ", " xs

/-- `_generate_markdown_report`. -/
def generate_markdown_report (r : Report) : String :=
  "# 需求分析评估报告\n\n## 评估概览\n" ++
  "- **评估日期**: " ++ r.summary.evaluation_date ++ "\n" ++
  "- **总分**: " ++ fmtQ1 r.summary.total_score ++ "/" ++
    fmtQInt r.summary.max_total_score ++ "\n" ++
  "- **得分率**: " ++ fmtQ2 r.summary.percentage ++ "%\n\n" ++
  "## 1. 功能点覆盖率 (" ++ fmtQ1 r.function_coverage.total_score ++ "/" ++
    fmtQInt r.function_coverage.max_score ++ "分)\n\n" ++
  "### 评估标准\n检测文档中是否包含校园二手图书交易相关功能点，采用加权评分\n" ++
  "核心功能权重2，重要功能权重1.5，辅助功能权重1\n\n### 评估结果\n" ++
  "- **已匹配关键词**: " ++ joinOr r.function_coverage.matched_keywords ++ "\n" ++
  "- **未匹配关键词**: " ++ joinOr r.function_coverage.unmatched_keywords ++ "\n\n" ++
  "### 详细结果\n" ++ bullets r.function_coverage.details ++
  "\n## 2. 需求完整性 (" ++ fmtQ1 r.structure_completeness.total_score ++ "/" ++
    fmtQInt r.structure_completeness.max_score ++ "分)\n\n" ++
  "### 评估标准\n检测文档结构完整性和内容质量，包括关键词密度和内容长度\n" ++
  "各部分权重：功能需求(5分)、非功能需求(4分)、用户故事(4分)、验收标准(4分)、技术约束(3分)\n\n" ++
  "### 评估结果\n" ++
  "- **已找到结构**: " ++ joinOr r.structure_completeness.found_sections ++ "\n" ++
  "- **缺失结构**: " ++ joinOr r.structure_completeness.missing_sections ++ "\n\n" ++
  "### 详细结果\n" ++ bullets r.structure_completeness.details ++
  "\n## 3. 描述清晰度 (" ++ toString r.description_clarity.total_score ++ "/" ++
    toString r.description_clarity.max_score ++ "分)\n\n" ++
  "### 评估标准\n按类别评估量化指标：时间指标、数量指标、性能指标、技术指标\n" ++
  "每个类别最多3分，总体表现奖励最多3分\n\n### 评估结果\n" ++
  "- **总量化需求数量**: " ++ toString r.description_clarity.quantifiable_count ++ "\n" ++
  "- **各类别得分**: " ++
    String.intercalate ", "
      (r.description_clarity.category_scores.map
        (fun (c : String × Nat) => c.1 ++ ": " ++ toString c.2)) ++ "\n\n" ++
  "### 详细结果\n" ++ bullets r.description_clarity.details ++
  "\n## 4. 技术要求 (" ++ fmtQ1 r.tech_requirements.total_score ++ "/" ++
    fmtQInt r.tech_requirements.max_score ++ "分)\n\n" ++
  "### 评估标准\n检测指定技术栈及其上下文关键词\n基础分1.5分，上下文关键词最多加0.5分\n\n" ++
  "### 评估结果\n" ++
  "- **已匹配技术栈**: " ++ joinOr r.tech_requirements.matched_keywords ++ "\n" ++
  "- **未匹配技术栈**: " ++ joinOr r.tech_requirements.unmatched_keywords ++ "\n\n" ++
  "### 详细结果\n" ++ bullets r.tech_requirements.details ++
  "\n## 5. EARS规范遵循度 (" ++ toString r.ears_compliance.total_score ++ "/" ++
    toString r.ears_compliance.max_score ++ "分)\n\n" ++
  "### 评估标准\n检测EARS规范的需求描述模式\n每种模式匹配得2分，最高10分\n\n" ++
  "### 评估结果\n" ++
  "- **找到的EARS模式数量**: " ++
    toString r.ears_compliance.ears_patterns_found.length ++ "\n\n" ++
  "### 详细结果\n" ++ bullets r.ears_compliance.details ++
  "\n## 改进建议\n\n" ++
  String.join (r.recommendations.enum.map
    (fun (p : Nat × String) => toString (p.1 + 1) ++ ". " ++ p.2 ++ "\n"))

/-- The full single-document pipeline: evaluate, then render. -/
def evaluate_and_render (content : List Char)
    (findall : String → List String) (today : String) : String :=
  generate_markdown_report (generate_evaluation_report content findall today)

/-- Replace the report's evaluation date (used to state what of the
report is date-independent). -/
def setDate (r : Report) (d : String) : Report :=
  { r with summary := { r.summary with evaluation_date := d } }

end Requirement

namespace Backend

/-! ### BackendAnalyzer (src/src/backend.py) -/

structure ApiResult where
  total_score : ℚ
  max_score : ℚ
  implemented_apis : Nat
  total_apis : Nat
  details : List String
deriving DecidableEq

/-- `evaluate_api_completion` (lines 138-175) with the configured total
API count as a parameter (the source hardcodes `total_apis = 10` as a
placeholder for parsing the Swagger document).  `implemented_apis` is
the total number of route-pattern matches found in the loaded backend
files (the regex counting loop of lines 153-158).  The local
`completion_rate` is assigned only under `total_apis > 0`, and the
second detail line reads it unconditionally, which is a Python
`NameError` when it was never assigned — modelled with `Except`. -/
def evaluate_api_completion_core (implemented_apis total_apis : Nat) :
    Except String ApiResult :=
  let completion_rate : Option ℚ :=
    if 0 < total_apis then some ((implemented_apis : ℚ) / (total_apis : ℚ))
    else none
  let total_score : ℚ :=
    match completion_rate with
    | some r => round1 (r * 10)
    | none => 0
  let d1 := "实现API数: " ++ toString implemented_apis ++ "/" ++ toString total_apis
  match completion_rate with
  | none => .error "NameError: completion_rate is not defined"
  | some r =>
    .ok { total_score, max_score := 10, implemented_apis, total_apis,
          details := [d1, "完成率: " ++ fmtQ1 (r * 100) ++ "%"] }

/-- `evaluate_api_completion` as written, with the hardcoded total 10. -/
def evaluate_api_completion (implemented_apis : Nat) : Except String ApiResult :=
  evaluate_api_completion_core implemented_apis 10

/-- The score returned by `evaluate_api_completion` (0 on the error path,
which never occurs for the hardcoded total 10). -/
def api_total_score (implemented_apis : Nat) : ℚ :=
  match evaluate_api_completion implemented_apis with
  | .ok r => r.total_score
  | .error _ => 0

end Backend

namespace Bug

/-! ### BugAnalyzer (src/src/bug.py) -/

/-- `self.time_thresholds`; `none` models `float(inf)`. -/
def time_thresholds : List (Option ℚ × ℚ) :=
  [(some 1800, 10), (some 3600, 7), (some 7200, 4), (none, 1)]

structure EffResult where
  score : ℚ
  detail : String
deriving DecidableEq

/-- `_evaluate_fix_efficiency`. -/
def evaluate_fix_efficiency (start_time end_time : ℚ) : EffResult :=
  let fix_time := end_time - start_time
  let score := bucketScore time_thresholds fix_time
  { score
    detail := "修复时间: " ++ fmtQ1 fix_time ++ "秒 (得分: " ++
      fmtQInt score ++ "/10)" }

structure BugFixResult where
  total_score : ℚ
  max_score : ℚ
  fixed_bugs : Nat
  total_discovered_bugs : Nat
  fix_efficiency_score : ℚ
  details : List String
deriving DecidableEq

/-- `evaluate_bug_fix` (lines 112-156) with the fix count quantities as
parameters (`_evaluate_fix_count` hardcodes `fixed=2, total=3` as a
placeholder).  The local `fix_rate` is assigned only under
`total_discovered_bugs > 0`, and the rate detail line reads it
unconditionally — a Python `NameError` when it was never assigned. -/
def evaluate_bug_fix_core (fixed_bugs total_discovered_bugs : Nat)
    (start_time end_time : ℚ) : Except String BugFixResult :=
  let fix_rate : Option ℚ :=
    if 0 < total_discovered_bugs then
      some ((fixed_bugs : ℚ) / (total_discovered_bugs : ℚ))
    else none
  let fix_count_score : ℚ :=
    match fix_rate with
    | some r => round1 (r * 10)
    | none => 0
  let d1 := "修复BUG数: " ++ toString fixed_bugs ++ "/" ++
    toString total_discovered_bugs
  match fix_rate with
  | none => .error "NameError: fix_rate is not defined"
  | some r =>
    let eff := evaluate_fix_efficiency start_time end_time
    .ok { total_score := round1 (fix_count_score + eff.score)
          max_score := 20
          fixed_bugs, total_discovered_bugs
          fix_efficiency_score := eff.score
          details := [d1,
            "修复率: " ++ fmtQ1 (r * 100) ++ "% (得分: " ++
              fmtQ1 fix_count_score ++ "/10)",
            eff.detail] }

/-- `evaluate_bug_fix` as written (placeholder counts 2 of 3). -/
def evaluate_bug_fix (start_time end_time : ℚ) : Except String BugFixResult :=
  evaluate_bug_fix_core 2 3 start_time end_time

/-- `self.quality_thresholds` rows
`(completely_fixed_flag, introduced_new_bugs_flag, score)`. -/
def quality_thresholds : List (Nat × Nat × Nat) :=
  [(0, 0, 10), (0, 1, 7), (1, 0, 5), (1, 1, 2)]

/-- The flag-decoding loop of `evaluate_fix_quality` (lines 222-225):
first row with `completely_fixed == (flag1 == 0)` and
`introduced_new_bugs == (flag2 == 1)` wins; score stays 0 otherwise. -/
def qualityLoop (rows : List (Nat × Nat × Nat))
    (completely_fixed introduced_new_bugs : Bool) : Nat :=
  match rows with
  | [] => 0
  | (f1, f2, s) :: rest =>
    if (completely_fixed == (f1 == 0)) && (introduced_new_bugs == (f2 == 1))
    then s
    else qualityLoop rest completely_fixed introduced_new_bugs

structure FixQualityResult where
  total_score : Nat
  max_score : Nat
  completely_fixed : Bool
  introduced_new_bugs : Bool
  details : List String
deriving DecidableEq

/-- `evaluate_fix_quality`, with the placeholder flags of the source:
completely fixed, but new bugs introduced. -/
def evaluate_fix_quality : FixQualityResult :=
  let completely_fixed := true
  let introduced_new_bugs := true
  let total_score := qualityLoop quality_thresholds completely_fixed introduced_new_bugs
  { total_score
    max_score := 10
    completely_fixed, introduced_new_bugs
    details :=
      ["完全修复: " ++ (if completely_fixed then "是" else "否"),
       "引入新BUG: " ++ (if introduced_new_bugs then "是" else "否"),
       "修复质量得分: " ++ toString total_score ++ "/10"] }

/-- Modelled from the rendered rubric text of `_generate_markdown_report`
(bug.py line 415): 完全修复且无新BUG：10分；部分修复但无新BUG：7分；
完全修复但引入新BUG：5分；部分修复且引入新BUG：2分. -/
def rubric_fix_quality_score (completely_fixed introduced_new_bugs : Bool) : Nat :=
  if completely_fixed && !introduced_new_bugs then 10
  else if !completely_fixed && !introduced_new_bugs then 7
  else if completely_fixed && introduced_new_bugs then 5
  else 2

end Bug

namespace Project

/-! ### ProjectAnalyzer (src/src/project.py) -/

/-- `self.time_thresholds`; `none` models `float(inf)`. -/
def time_thresholds : List (Option ℚ × ℚ) :=
  [(some 86400, 10), (some 172800, 7), (some 259200, 4), (none, 1)]

/-- The score of `evaluate_delivery_efficiency` (same loop as the bug
analyzer, with the delivery-time buckets). -/
def evaluate_delivery_efficiency (start_time end_time : ℚ) : ℚ :=
  bucketScore time_thresholds (end_time - start_time)

end Project

namespace ProcessScores

/-! ### process_scores.py -/

/-- A parsed score table: document name ↦ (total score, score rate),
in insertion order with unique keys (a Python dict). -/
abbrev ScoreTable := List (String × (ℚ × ℚ))

def keys (t : ScoreTable) : List String := t.map Prod.fst

/-- Python `scores.get(name, (0, 0))`. -/
def getD (t : ScoreTable) (name : String) : ℚ × ℚ :=
  (t.lookup name).getD (0, 0)

/-- `merge_scores`, parameterised by the enumeration order of
`all_names = set(scores1) | set(scores2)` (a Python set iterates in an
arbitrary order; any duplicate-free enumeration of the union is a
faithful instance). -/
def merge_scores_with (t1 t2 : ScoreTable) (all_names : List String) : ScoreTable :=
  all_names.map (fun name =>
    let score1 := getD t1 name
    let score2 := getD t2 name
    (name, (score1.1 + score2.1, score1.2 + score2.2)))

/-- A canonical duplicate-free enumeration of the key union. -/
def unionKeys (t1 t2 : ScoreTable) : List String :=
  (keys t1 ++ keys t2).dedup

/-- `merge_scores` with the canonical union order. -/
def merge_scores (t1 t2 : ScoreTable) : ScoreTable :=
  merge_scores_with t1 t2 (unionKeys t1 t2)

/-- The descending-by-total comparison of `print_sorted_scores`
(`sorted(..., key=lambda x: x[1][0], reverse=True)`). -/
def descTotal (a b : String × (ℚ × ℚ)) : Bool := decide (b.2.1 ≤ a.2.1)

/-- The row order printed by `print_sorted_scores`: a stable sort by
merged total, descending. -/
def sorted_scores (t : ScoreTable) : ScoreTable := t.mergeSort descTotal

end ProcessScores

/-! ### General lemmas about the embedded evaluators -/

theorem sum_map_div_mul (l : List ℚ) (W M : ℚ) :
    (l.map (fun w => w / W * M)).sum = l.sum / W * M := by
  induction l with
  | nil => simp
  | cons a t ih => simp [ih]; ring

namespace Requirement

theorem coverage_foldl_max_score (content : List Char) (W : ℚ)
    (l : List (String × ℚ)) (r : CoverageResult) :
    (l.foldl (coverageStep content W) r).max_score = r.max_score := by
  induction l generalizing r with
  | nil => rfl
  | cons a t ih =>
    rw [List.foldl_cons, ih]
    unfold coverageStep
    split <;> rfl

theorem coverage_foldl_total (content : List Char) (W : ℚ)
    (l : List (String × ℚ)) (r : CoverageResult) :
    (l.foldl (coverageStep content W) r).total_score =
      r.total_score +
        ((l.filter (fun kw => kwIn kw.1.toList content)).map
          (fun kw => kw.2 / W * r.max_score)).sum := by
  induction l generalizing r with
  | nil => simp
  | cons a t ih =>
    rw [List.foldl_cons, ih]
    unfold coverageStep
    split
    · rename_i h
      rw [List.filter_cons_of_pos (by simpa using h)]
      simp only [List.map_cons, List.sum_cons]
      ring
    · rename_i h
      rw [List.filter_cons_of_neg (by simpa using h)]

/-- The function-coverage score is the weighted-keyword formula: sum of
matched weights over total weight, times the max score, rounded. -/
theorem evaluate_function_coverage_with_total (kws : List (String × ℚ))
    (content : List Char) :
    (evaluate_function_coverage_with kws content).total_score =
      round1 ((((kws.filter (fun kw => kwIn kw.1.toList content)).map
        Prod.snd).sum / (kws.map Prod.snd).sum) * 20) := by
  unfold evaluate_function_coverage_with
  simp only
  rw [coverage_foldl_total]
  have hmax := coverage_foldl_max_score content ((kws.map Prod.snd).sum) kws
    { total_score := 0, max_score := 20, matched_keywords := [],
      unmatched_keywords := [], details := [] }
  simp only
  have : ((kws.filter (fun kw => kwIn kw.1.toList content)).map
      (fun kw => kw.2 / (kws.map Prod.snd).sum * (20 : ℚ))).sum =
      (((kws.filter (fun kw => kwIn kw.1.toList content)).map Prod.snd).map
        (fun w => w / (kws.map Prod.snd).sum * (20 : ℚ))).sum := by
    rw [List.map_map]
    rfl
  rw [this, sum_map_div_mul]
  ring_nf

theorem structure_foldl_total (content : List Char)
    (l : List SectionCriteria) (r : StructureResult) :
    (l.foldl (structureStep content) r).total_score =
      r.total_score +
        ((l.filter (fun c => kwIn c.name.toList content)).map
          (fun c => ((sectionQuality c content : ℚ) / 4) * c.weight)).sum := by
  induction l generalizing r with
  | nil => simp
  | cons a t ih =>
    rw [List.foldl_cons, ih]
    unfold structureStep
    split
    · rename_i h
      rw [List.filter_cons_of_pos (by simpa using h)]
      simp only [List.map_cons, List.sum_cons]
      ring
    · rename_i h
      rw [List.filter_cons_of_neg (by simpa using h)]

theorem structure_foldl_quality (content : List Char)
    (l : List SectionCriteria) (r : StructureResult) :
    (l.foldl (structureStep content) r).quality_scores =
      r.quality_scores ++
        (l.filter (fun c => kwIn c.name.toList content)).map
          (fun c => (c.name, sectionQuality c content)) := by
  induction l generalizing r with
  | nil => simp
  | cons a t ih =>
    rw [List.foldl_cons, ih]
    unfold structureStep
    split
    · rename_i h
      rw [List.filter_cons_of_pos (by simpa using h)]
      simp
    · rename_i h
      rw [List.filter_cons_of_neg (by simpa using h)]

theorem clarity_collect_fst (findall : String → List String)
    (pats : List String) (acc : Nat × List String) :
    (pats.foldl (clarityCollect findall) acc).1 =
      acc.1 + (pats.map (fun p => (findall p).length)).sum := by
  induction pats generalizing acc with
  | nil => simp
  | cons p t ih =>
    rw [List.foldl_cons, ih]
    unfold clarityCollect
    by_cases h : (findall p).isEmpty
    · simp [h, List.isEmpty_iff.mp h]
    · simp [h]
      omega

theorem clarity_foldl_counts (findall : String → List String)
    (cats : List (String × List String)) (r : ClarityResult) :
    (cats.foldl (clarityStep findall) r).category_scores =
        r.category_scores ++ cats.map (fun cat => (cat.1, categoryRawCount findall cat)) ∧
      (cats.foldl (clarityStep findall) r).quantifiable_count =
        r.quantifiable_count + (cats.map (categoryRawCount findall)).sum ∧
      (cats.foldl (clarityStep findall) r).total_score = r.total_score := by
  induction cats generalizing r with
  | nil => simp
  | cons a t ih =>
    rw [List.foldl_cons]
    obtain ⟨ih1, ih2, ih3⟩ := ih (clarityStep findall r a)
    refine ⟨?_, ?_, ?_⟩
    · rw [ih1]
      unfold clarityStep
      simp [clarity_collect_fst, categoryRawCount]
    · rw [ih2]
      unfold clarityStep
      simp [clarity_collect_fst, categoryRawCount]
      omega
    · rw [ih3]
      rfl

theorem foldl_add_min (l : List (String × Nat)) (t : Nat) :
    l.foldl (fun s (c : String × Nat) => s + min c.2 3) t =
      t + (l.map (fun c => min c.2 3)).sum := by
  induction l generalizing t with
  | nil => simp
  | cons a tl ih =>
    rw [List.foldl_cons, ih]
    simp
    omega

/-- The clarity score is the tiered-category-count formula: per-category
contributions capped at 3, plus the bonus tier of the raw-count sum. -/
theorem evaluate_description_clarity_total (findall : String → List String) :
    (evaluate_description_clarity findall).total_score =
      ((quantifiable_categories.map (categoryRawCount findall)).map
        (fun n => min n 3)).sum +
      clarityBonus ((quantifiable_categories.map (categoryRawCount findall)).sum) := by
  unfold evaluate_description_clarity
  obtain ⟨h1, h2, h3⟩ := clarity_foldl_counts findall quantifiable_categories
    { total_score := 0, max_score := 15, quantifiable_count := 0,
      found_quantifiables := [], details := [], category_scores := [] }
  simp only [h1, h2, h3, foldl_add_min, List.map_map]
  simp
  rfl

end Requirement

namespace ProcessScores

theorem lookup_map_self (names : List String) (v : String → ℚ × ℚ) (n : String) :
    ((names.map (fun m => (m, v m))).lookup n) =
      if n ∈ names then some (v n) else none := by
  induction names with
  | nil => simp
  | cons m t ih =>
    by_cases h : n = m
    · subst h
      simp [List.lookup]
    · have hb : (n == m) = false := beq_eq_false_iff_ne.mpr h
      simp only [List.map_cons, List.lookup, hb, ih, List.mem_cons]
      simp [h]

theorem descTotal_trans (a b c : String × (ℚ × ℚ)) :
    descTotal a b → descTotal b c → descTotal a c := by
  unfold descTotal
  intro h1 h2
  simp only [decide_eq_true_eq] at h1 h2 ⊢
  linarith

theorem descTotal_total (a b : String × (ℚ × ℚ)) :
    descTotal a b || descTotal b a := by
  unfold descTotal
  rcases le_total a.2.1 b.2.1 with h | h <;> simp [h]

end ProcessScores

namespace Requirement

/-- The structural-quality formula as the spec/claim words it: a base
point of 1 for presence of the heading (instead of the code's base of 2),
plus the two bonus points. -/
def claimSectionQuality (c : SectionCriteria) (content : List Char) : Nat :=
  1 + sectionKwBonus c content + sectionLenBonus c content

/-- The structure-completeness total under the claim's formula. -/
def claim_structure_total (content : List Char) : ℚ :=
  round1 (((structure_criteria.filter (fun c => kwIn c.name.toList content)).map
    (fun c => ((claimSectionQuality c content : ℚ) / 4) * c.weight)).sum)

/-- A concrete regex oracle realising the tiered-category example with
raw category counts 5 (time), 0 (quantity), 2 (performance), 1 (tech). -/
def exampleFindall : String → List String := fun p =>
  if p = "\\d+\\s*分钟" then ["3分钟", "4分钟", "5分钟"]
  else if p = "\\d+\\s*小时" then ["1小时", "2小时"]
  else if p = "\\d+\\s*%" then ["10%"]
  else if p = "响应时间\\s*[<≤]\\s*\\d+" then ["响应时间<2"]
  else if p = "端口\\s*\\d+" then ["端口80"]
  else []

end Requirement

/-! ### The claims -/

/-- C1 counterexample: with 11 route-pattern matches in the loaded
backend files, `evaluate_api_completion` returns score 11, exceeding its
declared max score of 10 — the claimed invariant `score ≤ maxScore`
fails on the API-completion dimension. -/
theorem c1_counterexample :
    Backend.api_total_score 11 = 11 ∧
      ¬(Backend.api_total_score 11 ≤ 10) ∧
      (Backend.evaluate_api_completion 11).isOk = true := by
  have h : Backend.api_total_score 11 = 11 := by
    norm_num [Backend.api_total_score, Backend.evaluate_api_completion,
      Backend.evaluate_api_completion_core, round1, pyRoundInt]
  refine ⟨h, by rw [h]; norm_num, by rfl⟩

/-- C1 (amended): every dimension score is nonnegative; the requirement
function-coverage score always lies within `[0, maxScore]`; but the
API-completion score equals the raw route-match count
(`round(matches/10·10, 1)` with no cap), so it respects its max score of
10 exactly when at most 10 matches are found. -/
theorem c1_dimension_score_bounds :
    (∀ content : List Char,
       0 ≤ (Requirement.evaluate_function_coverage content).total_score ∧
       (Requirement.evaluate_function_coverage content).total_score ≤
         (Requirement.evaluate_function_coverage content).max_score) ∧
    (∀ implemented_apis : Nat,
       Backend.api_total_score implemented_apis = implemented_apis ∧
       (Backend.api_total_score implemented_apis ≤ 10 ↔ implemented_apis ≤ 10)) := by
  constructor
  · intro content
    have hmax : (Requirement.evaluate_function_coverage content).max_score = 20 := by
      unfold Requirement.evaluate_function_coverage
        Requirement.evaluate_function_coverage_with
      simp only
      rw [Requirement.coverage_foldl_max_score]
    have htot := Requirement.evaluate_function_coverage_with_total
      Requirement.function_keywords content
    have hW : ((Requirement.function_keywords.map Prod.snd).sum : ℚ) = 18 := by
      norm_num [Requirement.function_keywords]
    have hnn : ∀ w ∈ Requirement.function_keywords.map Prod.snd, (0 : ℚ) ≤ w := by
      norm_num [Requirement.function_keywords]
    have hsub : List.Sublist
        ((Requirement.function_keywords.filter
          (fun kw => kwIn kw.1.toList content)).map Prod.snd)
        (Requirement.function_keywords.map Prod.snd) :=
      (List.filter_sublist _).map _
    have hS0 : 0 ≤ ((Requirement.function_keywords.filter
        (fun kw => kwIn kw.1.toList content)).map Prod.snd).sum :=
      List.sum_nonneg fun w hw => hnn w (hsub.subset hw)
    have hSle : ((Requirement.function_keywords.filter
        (fun kw => kwIn kw.1.toList content)).map Prod.snd).sum ≤ 18 := by
      calc ((Requirement.function_keywords.filter
            (fun kw => kwIn kw.1.toList content)).map Prod.snd).sum
          ≤ (Requirement.function_keywords.map Prod.snd).sum :=
            List.Sublist.sum_le_sum hsub hnn
        _ = 18 := hW
    have htot' : (Requirement.evaluate_function_coverage content).total_score =
        round1 ((((Requirement.function_keywords.filter
          (fun kw => kwIn kw.1.toList content)).map Prod.snd).sum /
          ((Requirement.function_keywords.map Prod.snd).sum)) * 20) := htot
    rw [htot', hmax, hW]
    constructor
    · exact round1_nonneg (by positivity)
    · have h20 : ((Requirement.function_keywords.filter
          (fun kw => kwIn kw.1.toList content)).map Prod.snd).sum / 18 * 20 ≤
          ((20 : ℤ) : ℚ) := by
        push_cast
        nlinarith
      have := round1_le_int h20
      exact_mod_cast this
  · intro implemented_apis
    have h : Backend.api_total_score implemented_apis = implemented_apis := by
      unfold Backend.api_total_score Backend.evaluate_api_completion
        Backend.evaluate_api_completion_core
      norm_num
      exact round1_natCast _
    refine ⟨h, by rw [h]; exact_mod_cast Iff.rfl⟩

/-- C2 counterexample: on the document consisting of just the heading
`技术约束` (present, fewer than 2 context keywords, body below the
minimum length), the code scores quality 2 (base of 2) and a total of
(2/4)·3 = 1.5, while the claim's formula (base point of 1) yields
quality 1 and a rounded total of 0.8 — the claimed base of one point is
wrong. -/
theorem c2_counterexample :
    (Requirement.evaluate_structure_completeness "技术约束".toList).total_score = 3/2 ∧
      Requirement.claim_structure_total "技术约束".toList = 4/5 ∧
      ((3 : ℚ)/2 ≠ 4/5) := by
  have h1 : kwIn "技术约束".toList "技术约束".toList = true := by decide
  have h2 : kwIn "功能需求".toList "技术约束".toList = false := by decide
  have h3 : kwIn "非功能需求".toList "技术约束".toList = false := by decide
  have h4 : kwIn "用户故事".toList "技术约束".toList = false := by decide
  have h5 : kwIn "验收标准".toList "技术约束".toList = false := by decide
  have hq : Requirement.sectionQuality
      { name := "技术约束", keywords := ["前端", "后端", "数据库", "技术栈"],
        min_content_length := 50, weight := 3 } "技术约束".toList = 2 := by decide
  have hcq : Requirement.claimSectionQuality
      { name := "技术约束", keywords := ["前端", "后端", "数据库", "技术栈"],
        min_content_length := 50, weight := 3 } "技术约束".toList = 1 := by decide
  refine ⟨?_, ?_, by norm_num⟩
  · unfold Requirement.evaluate_structure_completeness
    simp only
    rw [Requirement.structure_foldl_total]
    simp only [Requirement.structure_criteria, List.filter, h1, h2, h3, h4, h5,
      List.map_cons, List.map_nil, List.sum_cons, List.sum_nil, hq]
    norm_num [round1, pyRoundInt]
  · unfold Requirement.claim_structure_total
    simp only [Requirement.structure_criteria, List.filter, h1, h2, h3, h4, h5,
      List.map_cons, List.map_nil, List.sum_cons, List.sum_nil, hcq]
    norm_num [round1, pyRoundInt]

/-- C2 (amended): for every document, a found section's quality score is
a base of TWO points for presence plus the two bonus points (keyword
density, body length), out of 4; the section's final score is
(quality/4)·weight, and the dimension total is the rounded sum of the
final scores of the found sections. -/
theorem c2_structural_quality :
    ∀ (content : List Char) (c : Requirement.SectionCriteria),
      Requirement.sectionQuality c content =
        2 + Requirement.sectionKwBonus c content +
          Requirement.sectionLenBonus c content ∧
      (Requirement.evaluate_structure_completeness content).total_score =
        round1 (((Requirement.structure_criteria.filter
          (fun s => kwIn s.name.toList content)).map
          (fun s => ((Requirement.sectionQuality s content : ℚ) / 4) * s.weight)).sum) ∧
      (Requirement.evaluate_structure_completeness content).quality_scores =
        (Requirement.structure_criteria.filter
          (fun s => kwIn s.name.toList content)).map
          (fun s => (s.name, Requirement.sectionQuality s content)) := by
  intro content c
  refine ⟨rfl, ?_, ?_⟩
  · unfold Requirement.evaluate_structure_completeness
    simp only
    rw [Requirement.structure_foldl_total]
    norm_num
  · unfold Requirement.evaluate_structure_completeness
    simp only
    rw [Requirement.structure_foldl_quality]
    simp

/-- C3: the divisions themselves are guarded (an empty weighted-keyword
map evaluates to score 0 without error), but in the API-completion and
bug-fix evaluators a zero total makes the rate detail line read a local
that was never assigned: evaluation raises a NameError instead of
returning a zero score. -/
theorem c3_degenerate_configuration :
    (∀ implemented_apis : Nat,
       Backend.evaluate_api_completion_core implemented_apis 0 =
         .error "NameError: completion_rate is not defined") ∧
    (∀ (fixed_bugs : Nat) (s e : ℚ),
       Bug.evaluate_bug_fix_core fixed_bugs 0 s e =
         .error "NameError: fix_rate is not defined") ∧
    (∀ content : List Char,
       (Requirement.evaluate_function_coverage_with [] content).total_score = 0) := by
  refine ⟨fun i => by simp [Backend.evaluate_api_completion_core],
    fun f s e => by simp [Bug.evaluate_bug_fix_core],
    fun content => ?_⟩
  unfold Requirement.evaluate_function_coverage_with
  simp only [List.foldl_nil]
  simpa using round1_intCast 0

/-- C4 counterexample: two independent runs over identical content and
configuration but on different dates (the report embeds
`datetime.now()`) produce different AggregateReports and different
rendered documents — byte-identity fails across dates. -/
theorem c4_counterexample :
    Requirement.generate_evaluation_report "".toList (fun _ => []) "2024-01-01" ≠
        Requirement.generate_evaluation_report "".toList (fun _ => []) "2024-01-02" ∧
      Requirement.evaluate_and_render "".toList (fun _ => []) "2024-01-01" ≠
        Requirement.evaluate_and_render "".toList (fun _ => []) "2024-01-02" := by
  constructor
  · intro h
    exact absurd (congrArg (fun r => r.summary.evaluation_date) h) (by decide)
  · decide

/-- C4 (amended): evaluation is a pure function of the artifact content,
the configured detectors and the current date: every report field except
the evaluation date is date-independent, and two runs sharing the same
date yield identical AggregateReports and byte-identical rendered
documents. -/
theorem c4_determinism :
    ∀ (content : List Char) (findall : String → List String) (d d' : String),
      Requirement.setDate (Requirement.generate_evaluation_report content findall d) "" =
        Requirement.setDate (Requirement.generate_evaluation_report content findall d') "" ∧
      (Requirement.generate_evaluation_report content findall d).summary.evaluation_date = d ∧
      (d = d' →
        Requirement.generate_evaluation_report content findall d =
          Requirement.generate_evaluation_report content findall d' ∧
        Requirement.evaluate_and_render content findall d =
          Requirement.evaluate_and_render content findall d') := by
  intro content findall d d'
  refine ⟨rfl, rfl, ?_⟩
  rintro rfl
  exact ⟨rfl, rfl⟩

/-- C4 witness: the determinism theorem applied at a concrete content,
oracle and equal dates. -/
theorem c4_determinism_witness :
    Requirement.generate_evaluation_report "".toList (fun _ => []) "2024-01-01" =
        Requirement.generate_evaluation_report "".toList (fun _ => []) "2024-01-01" ∧
      Requirement.evaluate_and_render "".toList (fun _ => []) "2024-01-01" =
        Requirement.evaluate_and_render "".toList (fun _ => []) "2024-01-01" :=
  (c4_determinism "".toList (fun _ => []) "2024-01-01" "2024-01-01").2.2 rfl

/-- C5: the threshold-bucket scorer returns the score of the first
bucket (ascending order) whose bound strictly exceeds the measured
value; with the bug-fix buckets, 1799 seconds scores 10 and exactly 1800
scores 7; the delivery-efficiency buckets behave the same way. -/
theorem c5_threshold_buckets :
    (∀ t : ℚ, bucketScore Bug.time_thresholds t =
        if t < 1800 then 10 else if t < 3600 then 7
        else if t < 7200 then 4 else 1) ∧
      (Bug.evaluate_fix_efficiency 0 1799).score = 10 ∧
      (Bug.evaluate_fix_efficiency 0 1800).score = 7 ∧
      (∀ s e : ℚ, Project.evaluate_delivery_efficiency s e =
        if e - s < 86400 then 10 else if e - s < 172800 then 7
        else if e - s < 259200 then 4 else 1) := by
  refine ⟨fun t => ?_, ?_, ?_, fun s e => ?_⟩
  · simp [bucketScore, Bug.time_thresholds]
  · norm_num [Bug.evaluate_fix_efficiency, bucketScore, Bug.time_thresholds]
  · norm_num [Bug.evaluate_fix_efficiency, bucketScore, Bug.time_thresholds]
  · simp [Project.evaluate_delivery_efficiency, bucketScore, Project.time_thresholds]

/-- C6: under the weighted-keyword strategy the dimension score is the
sum of matched weights over the total weight, times the max score of 20
(rounded to one decimal); with weights a↦2, b↦1.5 and only `a` matched,
the score is 2/3.5·20 = 11.4. -/
theorem c6_weighted_keyword :
    (∀ (kws : List (String × ℚ)) (content : List Char),
       (kws.map Prod.snd).sum ≠ 0 →
       (Requirement.evaluate_function_coverage_with kws content).total_score =
         round1 ((((kws.filter (fun kw => kwIn kw.1.toList content)).map
           Prod.snd).sum / (kws.map Prod.snd).sum) * 20)) ∧
      (Requirement.evaluate_function_coverage_with
        [("a", 2), ("b", 3/2)] "a".toList).total_score = 57/5 := by
  constructor
  · intro kws content _
    exact Requirement.evaluate_function_coverage_with_total kws content
  · rw [Requirement.evaluate_function_coverage_with_total]
    have ha : kwIn "a".toList "a".toList = true := by decide
    have hb : kwIn "b".toList "a".toList = false := by decide
    simp only [List.filter, ha, hb, List.map_cons, List.map_nil,
      List.sum_cons, List.sum_nil]
    norm_num [round1, pyRoundInt]

/-- C6 witness: the weighted-keyword formula applied at the example
configuration, whose total weight 3.5 is nonzero. -/
theorem c6_weighted_keyword_witness :
    (([("a", (2 : ℚ)), ("b", 3/2)].map Prod.snd).sum ≠ 0) ∧
      (Requirement.evaluate_function_coverage_with
          [("a", 2), ("b", 3/2)] "a".toList).total_score =
        round1 (((([("a", (2 : ℚ)), ("b", 3/2)].filter
          (fun kw => kwIn kw.1.toList "a".toList)).map Prod.snd).sum /
          (([("a", (2 : ℚ)), ("b", 3/2)].map Prod.snd).sum)) * 20) :=
  ⟨by norm_num,
    c6_weighted_keyword.1 [("a", 2), ("b", 3/2)] "a".toList (by norm_num)⟩

/-- C7: the grade is a pure function of the percentage with
lower-inclusive bands 90/80/70/60; 90.0 is A, 89.99 is B, 80.0 is B,
79.99 is C, 59.99 is F (the code receives the ratio percentage/100). -/
theorem c7_grade_classification :
    (∀ p : ℚ, calculate_grade (p / 100) =
        (if 90 ≤ p then "优秀 (A)" else if 80 ≤ p then "良好 (B)"
         else if 70 ≤ p then "中等 (C)" else if 60 ≤ p then "及格 (D)"
         else "不及格 (F)")) ∧
      calculate_grade (90/100) = "优秀 (A)" ∧
      calculate_grade (8999/10000) = "良好 (B)" ∧
      calculate_grade (80/100) = "良好 (B)" ∧
      calculate_grade (7999/10000) = "中等 (C)" ∧
      calculate_grade (5999/10000) = "不及格 (F)" := by
  refine ⟨fun p => ?_, by norm_num [calculate_grade], by norm_num [calculate_grade],
    by norm_num [calculate_grade], by norm_num [calculate_grade],
    by norm_num [calculate_grade]⟩
  unfold calculate_grade
  by_cases h1 : (90 : ℚ) ≤ p
  · rw [if_pos (show (9 : ℚ)/10 ≤ p/100 by linarith), if_pos h1]
  · rw [if_neg (show ¬(9 : ℚ)/10 ≤ p/100 from fun hc => h1 (by linarith)),
      if_neg h1]
    by_cases h2 : (80 : ℚ) ≤ p
    · rw [if_pos (show (8 : ℚ)/10 ≤ p/100 by linarith), if_pos h2]
    · rw [if_neg (show ¬(8 : ℚ)/10 ≤ p/100 from fun hc => h2 (by linarith)),
        if_neg h2]
      by_cases h3 : (70 : ℚ) ≤ p
      · rw [if_pos (show (7 : ℚ)/10 ≤ p/100 by linarith), if_pos h3]
      · rw [if_neg (show ¬(7 : ℚ)/10 ≤ p/100 from fun hc => h3 (by linarith)),
          if_neg h3]
        by_cases h4 : (60 : ℚ) ≤ p
        · rw [if_pos (show (6 : ℚ)/10 ≤ p/100 by linarith), if_pos h4]
        · rw [if_neg (show ¬(6 : ℚ)/10 ≤ p/100 from fun hc => h4 (by linarith)),
            if_neg h4]

/-- C8: the merge contains exactly the keys of either input; an entry is
the elementwise sum of both sides with (0,0) for a missing side; rows
are then printed in stable descending order of merged total; the two
concrete merge examples hold. -/
theorem c8_merge :
    (∀ (t1 t2 : ProcessScores.ScoreTable) (n : String),
       (n ∈ ProcessScores.unionKeys t1 t2 ↔
         n ∈ ProcessScores.keys t1 ∨ n ∈ ProcessScores.keys t2) ∧
       ProcessScores.keys (ProcessScores.merge_scores t1 t2) =
         ProcessScores.unionKeys t1 t2 ∧
       (ProcessScores.merge_scores t1 t2).lookup n =
         (if n ∈ ProcessScores.unionKeys t1 t2 then
            some ((ProcessScores.getD t1 n).1 + (ProcessScores.getD t2 n).1,
              (ProcessScores.getD t1 n).2 + (ProcessScores.getD t2 n).2)
          else none)) ∧
      (∀ t : ProcessScores.ScoreTable,
        (ProcessScores.sorted_scores t).Pairwise (fun a b => b.2.1 ≤ a.2.1) ∧
        (ProcessScores.sorted_scores t).Perm t) ∧
      ProcessScores.merge_scores [("X", (10, 20))] [("Y", (5, 10))] =
        [("X", (10, 20)), ("Y", (5, 10))] ∧
      ProcessScores.merge_scores [("X", (10, 20))] [("X", (5, 10))] =
        [("X", (15, 30))] := by
  refine ⟨fun t1 t2 n => ⟨?_, ?_, ?_⟩, fun t => ⟨?_, ?_⟩, ?_, ?_⟩
  · simp [ProcessScores.unionKeys, ProcessScores.keys]
  · simp [ProcessScores.merge_scores, ProcessScores.merge_scores_with,
      ProcessScores.keys, List.map_map, Function.comp_def]
  · exact ProcessScores.lookup_map_self (ProcessScores.unionKeys t1 t2)
      (fun m => ((ProcessScores.getD t1 m).1 + (ProcessScores.getD t2 m).1,
        (ProcessScores.getD t1 m).2 + (ProcessScores.getD t2 m).2)) n
  · exact (List.sorted_mergeSort ProcessScores.descTotal_trans
      ProcessScores.descTotal_total t).imp (by simp [ProcessScores.descTotal])
  · exact List.mergeSort_perm t ProcessScores.descTotal
  · simp [ProcessScores.merge_scores, ProcessScores.merge_scores_with,
      ProcessScores.unionKeys, ProcessScores.keys, ProcessScores.getD,
      List.dedup, List.lookup]
  · simp [ProcessScores.merge_scores, ProcessScores.merge_scores_with,
      ProcessScores.unionKeys, ProcessScores.keys, ProcessScores.getD,
      List.dedup, List.lookup]
    norm_num

/-- C9: under the tiered-category-count strategy the clarity score is
the sum of per-category contributions min(rawCount, 3) plus a single
flat bonus from the raw-count sum (highest satisfied tier); with raw
counts 5,0,2,1 the contributions are 3,0,2,1, the sum 8 earns bonus 2,
and the dimension score is 8. -/
theorem c9_tiered_categories :
    (∀ findall : String → List String,
       (Requirement.evaluate_description_clarity findall).total_score =
         ((Requirement.quantifiable_categories.map
           (Requirement.categoryRawCount findall)).map (fun n => min n 3)).sum +
         Requirement.clarityBonus
           ((Requirement.quantifiable_categories.map
             (Requirement.categoryRawCount findall)).sum)) ∧
      Requirement.quantifiable_categories.map
        (Requirement.categoryRawCount Requirement.exampleFindall) = [5, 0, 2, 1] ∧
      Requirement.clarityBonus 8 = 2 ∧
      (Requirement.evaluate_description_clarity
        Requirement.exampleFindall).total_score = 8 := by
  exact ⟨Requirement.evaluate_description_clarity_total, by decide, by decide,
    by decide⟩

/-- C10: the fix-quality flag decoding maps (completely fixed, new bugs
introduced) to the 7-point row of the threshold table, so the recorded
placeholder combination scores 7, while the rendered rubric text assigns
5 points to that case. -/
theorem c10_fix_quality_seven :
    Bug.evaluate_fix_quality.completely_fixed = true ∧
      Bug.evaluate_fix_quality.introduced_new_bugs = true ∧
      Bug.evaluate_fix_quality.total_score = 7 ∧
      Bug.qualityLoop Bug.quality_thresholds true true = 7 ∧
      Bug.rubric_fix_quality_score true true = 5 := by decide

end DevBench
